import Mathlib

/-!
Shallow embedding of the vibex-python log-shipping SDK
(`src/vibex_sh/normalize.py`, `src/vibex_sh/client.py`,
`src/vibex_sh/handler.py`, `src/vibex_sh/config.py`) and proofs about it.

Python values that flow through the normalizer are modelled by the `Json`
inductive; Python dicts are modelled as association lists that preserve
insertion order, with first-match lookup and in-place overwrite on key
re-assignment, matching CPython dict semantics. Python `float` values are
modelled as rationals: the code only ever converts numbers with `float(...)`
and compares keys, it performs no floating-point arithmetic, so the
embedding is exact on every input the claims mention.
-/

/-- Model of a Python/JSON value as it flows through the SDK. -/
inductive Json where
  | null : Json
  | bool : Bool → Json
  | int : Int → Json
  | float : ℚ → Json
  | str : String → Json
  | arr : List Json → Json
  | obj : List (String × Json) → Json

/-- Character-list prefix test (helper for Python's `in` substring operator). -/
def listPrefixChk : List Char → List Char → Bool
  | [], _ => true
  | _ :: _, [] => false
  | a :: as, b :: bs => a = b && listPrefixChk as bs

/-- Character-list substring test (helper for Python's `in` substring operator). -/
def listSubstrChk (needle : List Char) : List Char → Bool
  | [] => needle.isEmpty
  | c :: cs => listPrefixChk needle (c :: cs) || listSubstrChk needle cs

/-- Python `needle in hay` on strings. -/
def strContains (hay needle : String) : Bool :=
  listSubstrChk needle.data hay.data

/-- Python `s.endswith(suffix)`. -/
def strEndsWith (s suffix : String) : Bool :=
  listPrefixChk suffix.data.reverse s.data.reverse

/-- Python `s.lower()` (ASCII, which covers every key the code compares). -/
def strLower (s : String) : String :=
  ⟨s.data.map Char.toLower⟩

/-- Python `s.upper()` (ASCII, which covers every level synonym the code compares). -/
def strUpper (s : String) : String :=
  ⟨s.data.map Char.toUpper⟩

/-- Python `d[k]` / `k in d` on an insertion-ordered dict: first-match lookup. -/
def dictGet (d : List (String × Json)) (k : String) : Option Json :=
  (d.find? (fun p => p.1 = k)).map (fun p => p.2)

/-- Python `d.get(k, default)`. -/
def dictGetD (d : List (String × Json)) (k : String) (default : Json) : Json :=
  match dictGet d k with
  | some v => v
  | none => default

/-- Python `d[k] = v` on an insertion-ordered dict: overwrite in place if the
key exists, otherwise append. -/
def dictSet (d : List (String × Json)) (k : String) (v : Json) : List (String × Json) :=
  if d.any (fun p => p.1 = k) then
    d.map (fun p => if p.1 = k then (k, v) else p)
  else
    d ++ [(k, v)]

/-- Python `d.update(src)`. -/
def dictUpdate (d src : List (String × Json)) : List (String × Json) :=
  src.foldl (fun acc p => dictSet acc p.1 p.2) d

/-- Python truthiness of a modelled value (`if not x` tests). -/
def truthy : Json → Bool
  | Json.null => false
  | Json.bool b => b
  | Json.int n => n ≠ 0
  | Json.float q => q ≠ 0
  | Json.str s => s ≠ ""
  | Json.arr xs => !xs.isEmpty
  | Json.obj kvs => !kvs.isEmpty

/-- Python `isinstance(v, (int, float))` combined with `float(v)`.
CPython's `bool` is a subclass of `int`, so booleans count as numeric and
convert to 1.0 / 0.0. -/
def toNum : Json → Option ℚ
  | Json.int n => some (n : ℚ)
  | Json.float q => some q
  | Json.bool b => some (if b then 1 else 0)
  | _ => none

/-- Embeds `normalize_level` (`normalize.py` lines 10–27). The argument is the
level value: `none` models Python `None`, `some s` a string (the inputs the
spec's contract covers; `if not level` makes both `None` and `""` fall to
the default). -/
def normalize_level : Option String → String
  | none => "debug"
  | some s =>
    if s = "" then "debug"
    else
      let u := strUpper s
      if u = "DEBUG" || u = "DBG" || u = "TRACE" then "debug"
      else if u = "INFO" || u = "INFORMATION" || u = "LOG" then "info"
      else if u = "WARN" || u = "WARNING" || u = "WRN" then "warn"
      else if u = "ERROR" || u = "ERR" || u = "EXCEPTION" || u = "FATAL" || u = "CRITICAL" then "error"
      else "debug"

/-- Embeds the `known_context_fields` set of `extract_metrics`
(`normalize.py` lines 45–50); membership is tested against the lowercased key. -/
def known_context_fields : List String :=
  ["trace_id", "traceId", "user_id", "userId", "request_id", "requestId",
   "correlation_id", "correlationId", "span_id", "spanId", "session_id", "sessionId",
   "id", "pid", "port", "year", "timestamp", "time", "date", "createdAt", "updatedAt",
   "datetime", "ts", "utc", "iso", "exc_info", "exception", "error"]

/-- Embeds the metric-pattern test of `extract_metrics`
(`normalize.py` lines 66–68): suffix tests on the original key, substring
tests on the lowercased key. -/
def metricKeyMatch (key : String) : Bool :=
  strEndsWith key "_ms" || strEndsWith key "_count" || strEndsWith key "_size" ||
  strEndsWith key "Ms" || strEndsWith key "Count" || strEndsWith key "Size" ||
  (["cpu", "memory", "latency", "response_time", "duration"].any
    (fun pat => strContains (strLower key) pat))

/-- Embeds `extract_metrics` (`normalize.py` lines 30–71). -/
def extract_metrics (payload : List (String × Json)) : List (String × ℚ) :=
  if payload.isEmpty then []
  else
    match dictGet payload "metrics" with
    | some (Json.obj mkvs) =>
      mkvs.filterMap (fun p => (toNum p.2).map (fun q => (p.1, q)))
    | _ =>
      payload.filterMap (fun p =>
        let kl := strLower p.1
        if known_context_fields.contains kl then none
        else if strContains kl "timestamp" || strContains kl "time" || strContains kl "date" then
          none
        else
          match toNum p.2 with
          | some q => if metricKeyMatch p.1 then some (p.1, q) else none
          | none => none)

/-- Embeds the `known_context_fields` field-to-canonical-key mapping of
`extract_context` (`normalize.py` lines 86–99), in iteration order. -/
def context_field_pairs : List (String × String) :=
  [("trace_id", "trace_id"), ("traceId", "trace_id"),
   ("user_id", "user_id"), ("userId", "user_id"),
   ("request_id", "request_id"), ("requestId", "request_id"),
   ("correlation_id", "correlation_id"), ("correlationId", "correlation_id"),
   ("span_id", "span_id"), ("spanId", "span_id"),
   ("session_id", "session_id"), ("sessionId", "session_id")]

/-- Embeds `extract_context` (`normalize.py` lines 74–105). -/
def extract_context (payload : List (String × Json)) : List (String × Json) :=
  if payload.isEmpty then []
  else
    match dictGet payload "context" with
    | some (Json.obj ckvs) => ckvs
    | _ =>
      context_field_pairs.foldl (fun ctx fp =>
        match dictGet payload fp.1 with
        | some v => dictSet ctx fp.2 v
        | none => ctx) []

/-- Resolves the hybrid message (`normalize.py` lines 134–139): the explicit
argument, else `merged["message"]` when present, else `merged["msg"]` when
present; Python truthiness decides whether to fall through. -/
def resolveMessage (message : Option String) (merged : List (String × Json)) : Json :=
  let m0 : Json := match message with
    | none => Json.null
    | some s => Json.str s
  let m1 : Json :=
    if !(truthy m0) then
      match dictGet merged "message" with
      | some v => v
      | none => m0
    else m0
  if !(truthy m1) then
    match dictGet merged "msg" with
    | some v => v
    | none => m1
  else m1

/-- Python's `a or b or c or d` chain: first truthy value, else the last. -/
def firstTruthy : List Json → Json
  | [] => Json.null
  | [j] => j
  | j :: rest => if truthy j then j else firstTruthy rest

/-- The argument passed to `normalize_level` inside `normalize_to_hybrid`
(`normalize.py` line 142): `level or merged.get("level") or
merged.get("severity") or merged.get("log_level")`. -/
def levelArgOf (level : Option String) (merged : List (String × Json)) : Json :=
  firstTruthy
    [(match level with | none => Json.null | some s => Json.str s),
     dictGetD merged "level" Json.null,
     dictGetD merged "severity" Json.null,
     dictGetD merged "log_level" Json.null]

/-- Python `normalize_level` applied to an arbitrary value. A falsy value
returns the default; a string goes through the synonym table. A truthy
non-string is stringified by Python (`str(level).upper()`), and no
stringified `None`/bool/number/list/dict ever equals a level synonym
(they are digit strings, `TRUE`/`FALSE`/`NONE`, or start with a bracket),
so Python returns the default `"debug"` for every such value, which is
what this definition returns directly. -/
def normalize_level_json (j : Json) : String :=
  if !(truthy j) then "debug"
  else
    match j with
    | Json.str s => normalize_level (some s)
    | _ => "debug"

/-- Reserved keys of the hybrid structure (`normalize.py` line 167). -/
def hybridReservedKeys : List String :=
  ["message", "msg", "level", "severity", "log_level", "metrics", "context", "_annotation"]

/-- Embeds `normalize_to_hybrid` (`normalize.py` lines 108–171). -/
def normalize_to_hybrid (message : Option String) (level : Option String)
    (payload extra : List (String × Json)) : List (String × Json) :=
  let merged := dictUpdate (dictUpdate [] payload) extra
  let nmsg := resolveMessage message merged
  let nlevel := normalize_level_json (levelArgOf level merged)
  let metrics := extract_metrics merged
  let context := extract_context merged
  let ann := dictGetD merged "_annotation" Json.null
  let hybrid : List (String × Json) :=
    [("message", nmsg), ("level", Json.str nlevel),
     ("metrics", Json.obj (metrics.map (fun p => (p.1, Json.float p.2)))),
     ("context", Json.obj context)]
  let hybrid := if truthy ann then hybrid ++ [("_annotation", ann)] else hybrid
  merged.foldl (fun h p =>
    if hybridReservedKeys.contains p.1 then h
    else if h.any (fun q => q.1 = p.1) then h
    else h ++ [(p.1, p.2)]) hybrid

/-- Result of `json.loads(message)` inside `VibexHandler.emit`: the parse
either raises (`notJson`) or yields a value. -/
inductive ParsedMsg where
  | notJson : ParsedMsg
  | json : Json → ParsedMsg

/-- Embeds the hybrid-payload construction of `VibexHandler.emit`
(`handler.py` lines 66–98): a message that parses as a JSON object goes
through `normalize_to_hybrid`; a failed parse or a non-object parse is a
text log and yields the minimal hybrid shape. -/
def emitHybrid (message : String) (level : String) (parsed : ParsedMsg)
    (extra : List (String × Json)) : List (String × Json) :=
  match parsed with
  | ParsedMsg.json (Json.obj kvs) =>
    normalize_to_hybrid (some message) (some level) kvs extra
  | _ =>
    [("message", Json.str message), ("level", Json.str level),
     ("metrics", Json.obj []), ("context", Json.obj [])]

/-- Embeds `VibexClient._mask_token` (`client.py` lines 72–76). -/
def mask_token (token : String) : String :=
  if token = "" || token.data.length ≤ 6 then "******"
  else ⟨token.data.take 6 ++ List.replicate (token.data.length - 6) '*'⟩

/-- The mask the spec sentence describes, word for word: the token's first
6 characters followed by one asterisk per remaining character. -/
def maskSpecWords (token : String) : String :=
  ⟨token.data.take 6 ++ List.replicate (token.data.length - 6) '*'⟩

/-- Embeds `VibexConfig` (`config.py`): the fields the client reads.
`none` models an unset environment variable. -/
structure VibexConfig where
  token : Option String
  session_id : Option String
  api_url : String

/-- Embeds `VibexConfig.is_valid` (`config.py` lines 41–43):
`bool(self.token and self.session_id)` — Python truthiness, so `None` and
`""` both fail. -/
def VibexConfig.isValidCfg (c : VibexConfig) : Bool :=
  (match c.token with | none => false | some t => t ≠ "") &&
  (match c.session_id with | none => false | some s => s ≠ "")

/-- A queued log entry: the `(log_type, payload, timestamp)` triple built by
`VibexClient.send_log` (`client.py` line 277). -/
structure LogEntry where
  logType : String
  payload : Json
  timestamp : Nat

/-- Embeds `MAX_QUEUE_SIZE` (`client.py` line 35). -/
def MAX_QUEUE_SIZE : Nat := 1000

/-- State of a `VibexClient` (`client.py` lines 41–53): the configuration,
the two disable flags, whether the background worker has been started, the
shutdown event, and the bounded log queue in FIFO order. -/
structure VibexClient where
  config : VibexConfig
  disabled : Bool
  disabled_permanently : Bool
  worker_started : Bool
  shutdown : Bool
  queue : List LogEntry

/-- Embeds `VibexClient._start_worker` (`client.py` lines 116–124). -/
def VibexClient.start_worker (c : VibexClient) : VibexClient :=
  if c.worker_started || c.disabled || c.disabled_permanently then c
  else { c with worker_started := true }

/-- Embeds `VibexClient.__init__` (`client.py` lines 41–70): valid
configuration leaves both disable flags false and starts the worker;
invalid configuration disables the client and starts nothing. -/
def VibexClient.init (config : VibexConfig) : VibexClient :=
  let c : VibexClient :=
    { config := config, disabled := false, disabled_permanently := false,
      worker_started := false, shutdown := false, queue := [] }
  if config.isValidCfg then c.start_worker
  else { c with disabled := true }

/-- Embeds `VibexClient.send_log` (`client.py` lines 252–286): reject when
disabled; disable and reject on late config invalidity; otherwise ensure the
worker is started and attempt a non-blocking bounded enqueue
(`queue.Queue.put_nowait` raises `Full` when the queue holds
`MAX_QUEUE_SIZE` items, and the log is dropped). -/
def VibexClient.send_log (c : VibexClient) (e : LogEntry) : VibexClient × Bool :=
  if c.disabled || c.disabled_permanently then (c, false)
  else if !c.config.isValidCfg then ({ c with disabled := true }, false)
  else
    let c1 := if !c.worker_started then c.start_worker else c
    if MAX_QUEUE_SIZE ≤ c1.queue.length then (c1, false)
    else ({ c1 with queue := c1.queue ++ [e] }, true)

/-- The HTTP outcome observed by `_send_batch`: a status code with the
response body as parsed by `response.json()` (`none` when parsing raises),
or a transport exception raised by `requests.post`. -/
inductive HttpResponse where
  | status : Nat → Option Json → HttpResponse
  | exn : HttpResponse

/-- Evaluates `'History Limit' in error_type or 'history limit' in
error_message.lower()` (`client.py` line 215) with Python semantics:
`some b` when the expression evaluates to `b`, `none` when it raises
(membership test on a non-container, or `.lower()` on a non-string), in
which case the surrounding `except` treats the 429 as transient. Python's
`or` short-circuits, so a raising right operand is never reached when the
left is true. -/
def hardLimit429 (errType errMsg : Json) : Option Bool :=
  match errType with
  | Json.str t =>
    if strContains t "History Limit" then some true
    else
      match errMsg with
      | Json.str m => some (strContains (strLower m) "history limit")
      | _ => none
  | Json.arr xs =>
    if xs.any (fun e => match e with | Json.str s => s = "History Limit" | _ => false) then
      some true
    else
      match errMsg with
      | Json.str m => some (strContains (strLower m) "history limit")
      | _ => none
  | Json.obj kvs =>
    if kvs.any (fun p => p.1 = "History Limit") then some true
    else
      match errMsg with
      | Json.str m => some (strContains (strLower m) "history limit")
      | _ => none
  | _ => none

/-- Embeds the HTTP 429 branch of `_send_batch` (`client.py` lines 209–226):
parse the body, read `message` and `error` with the default
`'Rate limit exceeded'`, permanently disable when the hard-limit test
evaluates to true; any exception in that block (parse failure, non-dict
body, a raising test) falls to the `except` and the 429 is transient.
The batch is dropped in every case. -/
def handle429 (c : VibexClient) (body : Option Json) : VibexClient :=
  match body with
  | none => c
  | some j =>
    match j with
    | Json.obj kvs =>
      let errMsg := dictGetD kvs "message" (Json.str "Rate limit exceeded")
      let errType := dictGetD kvs "error" (Json.str "Rate limit exceeded")
      if hardLimit429 errType errMsg = some true then { c with disabled_permanently := true }
      else c
    | _ => c

/-- The hard history/quota-limit indicator of a 429 response body, as a
standalone predicate: the body parses to a JSON object whose `error` field
(defaulting to `'Rate limit exceeded'`) contains `'History Limit'`, or whose
`message` field lowercased contains `'history limit'`, evaluated exactly as
the code's guard evaluates. -/
def indicator429 (body : Option Json) : Bool :=
  match body with
  | some (Json.obj kvs) =>
    (hardLimit429 (dictGetD kvs "error" (Json.str "Rate limit exceeded"))
      (dictGetD kvs "message" (Json.str "Rate limit exceeded"))) = some true
  | _ => false

/-- Embeds `VibexClient._send_batch` (`client.py` lines 163–250) as a state
transition on the observed HTTP outcome: no request happens for an empty
batch or a disabled client; late config invalidity disables; 401/403
permanently disable; 429 goes through the body inspection; every other
status (404, other non-2xx, and 2xx success) and any transport exception
leave the state unchanged. The batch itself is never requeued. -/
def VibexClient.send_batch (c : VibexClient) (batch : List LogEntry)
    (resp : HttpResponse) : VibexClient :=
  if batch.isEmpty || c.disabled || c.disabled_permanently then c
  else if !c.config.isValidCfg then { c with disabled := true }
  else
    match resp with
    | HttpResponse.exn => c
    | HttpResponse.status code body =>
      if code = 401 || code = 403 then { c with disabled_permanently := true }
      else if code = 429 then handle429 c body
      else c

/-- One flush step of `_worker_loop` (`client.py` lines 149–152): send the
accumulated batch and reset it to empty regardless of outcome — a failed
batch is never retried or requeued. -/
def workerFlushStep (c : VibexClient) (batch : List LogEntry)
    (resp : HttpResponse) : VibexClient × List LogEntry :=
  (c.send_batch batch resp, [])

/-- Embeds `VibexClient.flush` (`client.py` lines 288–307): a no-op when the
worker was never started; otherwise it sets the shutdown event and joins the
queue and the worker with bounded waits. It touches no other field: the
disable flags, `_worker_started` and the queue are left as they were. -/
def VibexClient.flush (c : VibexClient) : VibexClient :=
  if !c.worker_started then c
  else { c with shutdown := true }

/-- Folds `send_log` over a list of entries, recording each returned
boolean, modelling a producer enqueuing with no draining worker. -/
def sendAll (c : VibexClient) : List LogEntry → VibexClient × List Bool
  | [] => (c, [])
  | e :: es =>
    let r := c.send_log e
    let rest := sendAll r.1 es
    (rest.1, r.2 :: rest.2)

/-- A client that accepts logs: neither disable flag set and a valid
configuration (the fast-path conditions of `send_log`). -/
abbrev acceptingState (c : VibexClient) : Prop :=
  c.disabled = false ∧ c.disabled_permanently = false ∧ c.config.isValidCfg = true

/-- C5 evidence: the code classifies no key containing `response_time` as a
metric. The timestamp filter of `extract_metrics` (line 60) skips every key
containing `time` before the metric-pattern test runs, yet the code's own
pattern list (line 68) names `response_time` — that branch is unreachable.
At the input `{"response_time": 5}` the code returns no metrics, although
the key matches the metric pattern list and the `time` filter is what
swallows it. -/
theorem responseTimeNeverMetric :
    extract_metrics [("response_time", Json.int 5)] = [] ∧
    metricKeyMatch "response_time" = true ∧
    strContains (strLower "response_time") "time" = true ∧
    (known_context_fields.contains (strLower "response_time")) = false := by
  refine ⟨by decide, by decide, by decide, by decide⟩

/-- C6: for every input in the documented synonym sets — DEBUG/DBG/TRACE,
INFO/INFORMATION/LOG, WARN/WARNING/WRN, ERROR/ERR/EXCEPTION/FATAL/CRITICAL,
matched case-insensitively (i.e. whose uppercasing lands in the set) —
`normalize_level` returns the corresponding canonical value, and for every
other input, including the empty string and `None`, it returns `"debug"`. -/
theorem normalize_level_synonym_sets (s : String) :
    normalize_level none = "debug" ∧
    normalize_level (some "") = "debug" ∧
    (strUpper s ∈ ["DEBUG", "DBG", "TRACE"] → normalize_level (some s) = "debug") ∧
    (strUpper s ∈ ["INFO", "INFORMATION", "LOG"] → normalize_level (some s) = "info") ∧
    (strUpper s ∈ ["WARN", "WARNING", "WRN"] → normalize_level (some s) = "warn") ∧
    (strUpper s ∈ ["ERROR", "ERR", "EXCEPTION", "FATAL", "CRITICAL"] →
      normalize_level (some s) = "error") ∧
    (strUpper s ∉ ["DEBUG", "DBG", "TRACE", "INFO", "INFORMATION", "LOG",
        "WARN", "WARNING", "WRN", "ERROR", "ERR", "EXCEPTION", "FATAL", "CRITICAL"] →
      normalize_level (some s) = "debug") := by
  have hne : ∀ (t : String), strUpper s = t → t ≠ "" → ¬ s = "" := by
    rintro t ht hne rfl
    exact hne (ht.symm.trans rfl)
  refine ⟨rfl, rfl, ?_, ?_, ?_, ?_, ?_⟩
  · intro h
    simp only [List.mem_cons, List.not_mem_nil, or_false] at h
    rcases h with h|h|h <;>
      simp [normalize_level, hne _ h (by decide), h]
  · intro h
    simp only [List.mem_cons, List.not_mem_nil, or_false] at h
    rcases h with h|h|h <;>
      simp [normalize_level, hne _ h (by decide), h]
  · intro h
    simp only [List.mem_cons, List.not_mem_nil, or_false] at h
    rcases h with h|h|h <;>
      simp [normalize_level, hne _ h (by decide), h]
  · intro h
    simp only [List.mem_cons, List.not_mem_nil, or_false] at h
    rcases h with h|h|h|h|h <;>
      simp [normalize_level, hne _ h (by decide), h]
  · intro h
    simp only [List.mem_cons, List.not_mem_nil, or_false, not_or] at h
    by_cases hs : s = ""
    · subst hs; rfl
    · simp only [normalize_level, if_neg hs]
      obtain ⟨h1, h2, h3, h4, h5, h6, h7, h8, h9, h10, h11, h12, h13, h14⟩ := h
      simp [h1, h2, h3, h4, h5, h6, h7, h8, h9, h10, h11, h12, h13, h14]

/-- Witness for the C6 theorem at concrete inputs: `"Fatal"` maps to
`"error"` (case-insensitive synonym) and `"verbose"` (not a synonym) maps
to `"debug"`. -/
theorem normalize_level_synonym_sets_witness :
    normalize_level (some "Fatal") = "error" ∧ normalize_level (some "verbose") = "debug" :=
  ⟨((normalize_level_synonym_sets "Fatal").2.2.2.2.2.1) (by decide),
   ((normalize_level_synonym_sets "verbose").2.2.2.2.2.2) (by decide)⟩

/-- C7: explicit nested objects win over predictive extraction. When the
payload holds a dict under `"metrics"`, `extract_metrics` returns exactly
the numeric entries of that dict converted to float and is independent of
every other top-level field (it equals the extraction from the nested dict
alone); `{"metrics": {"a": 1}, "cpu_pct": 99}` yields `{"a": 1.0}` only.
When the payload holds a dict under `"context"`, `extract_context` returns
that dict as-is. -/
theorem explicit_nested_wins (payload mkvs ckvs : List (String × Json)) :
    (dictGet payload "metrics" = some (Json.obj mkvs) →
      extract_metrics payload =
        mkvs.filterMap (fun p => (toNum p.2).map (fun q => (p.1, q))) ∧
      extract_metrics payload = extract_metrics [("metrics", Json.obj mkvs)]) ∧
    (dictGet payload "context" = some (Json.obj ckvs) → extract_context payload = ckvs) ∧
    extract_metrics [("metrics", Json.obj [("a", Json.int 1)]), ("cpu_pct", Json.int 99)]
      = [("a", (1 : ℚ))] := by
  refine ⟨?_, ?_, by decide⟩
  · intro h
    have hne : payload.isEmpty = false := by
      cases payload with
      | nil => simp [dictGet] at h
      | cons a l => rfl
    have h1 : extract_metrics payload =
        mkvs.filterMap (fun p => (toNum p.2).map (fun q => (p.1, q))) := by
      unfold extract_metrics
      rw [hne]
      simp only [Bool.false_eq_true, if_false]
      rw [h]
    exact ⟨h1, h1.trans rfl⟩
  · intro h
    have hne : payload.isEmpty = false := by
      cases payload with
      | nil => simp [dictGet] at h
      | cons a l => rfl
    unfold extract_context
    rw [hne]
    simp only [Bool.false_eq_true, if_false]
    rw [h]

/-- Witness for the C7 theorem: the claim's own example for metrics, and a
payload with a nested context plus a predictable top-level id field for
context — the nested dict is returned untouched. -/
theorem explicit_nested_wins_witness :
    extract_metrics [("metrics", Json.obj [("a", Json.int 1)]), ("cpu_pct", Json.int 99)]
      = [("a", (1 : ℚ))] ∧
    extract_context [("context", Json.obj [("region", Json.str "eu")]), ("user_id", Json.str "u1")]
      = [("region", Json.str "eu")] :=
  ⟨(explicit_nested_wins [] [] []).2.2,
   (explicit_nested_wins
      [("context", Json.obj [("region", Json.str "eu")]), ("user_id", Json.str "u1")]
      [] [("region", Json.str "eu")]).2.1 rfl⟩

/-- C8: a log record whose message does not parse as a JSON object — the
parse raises, or parses to a non-object — yields the minimal hybrid payload
whose `message` is the raw text and whose `metrics` and `context` are both
empty. -/
theorem text_log_hybrid (message level : String) (extra : List (String × Json)) (j : Json) :
    emitHybrid message level ParsedMsg.notJson extra =
      [("message", Json.str message), ("level", Json.str level),
       ("metrics", Json.obj []), ("context", Json.obj [])] ∧
    ((∀ kvs, j ≠ Json.obj kvs) →
      emitHybrid message level (ParsedMsg.json j) extra =
        [("message", Json.str message), ("level", Json.str level),
         ("metrics", Json.obj []), ("context", Json.obj [])]) := by
  constructor
  · rfl
  · intro h
    cases j with
    | obj kvs => exact absurd rfl (h kvs)
    | null => rfl
    | bool b => rfl
    | int n => rfl
    | float q => rfl
    | str s => rfl
    | arr xs => rfl

/-- Witness for the C8 theorem: the free-text message `"plain string"` and
a message parsing to the non-object JSON value `3`. -/
theorem text_log_hybrid_witness :
    emitHybrid "plain string" "info" ParsedMsg.notJson [] =
      [("message", Json.str "plain string"), ("level", Json.str "info"),
       ("metrics", Json.obj []), ("context", Json.obj [])] ∧
    emitHybrid "3" "info" (ParsedMsg.json (Json.int 3)) [] =
      [("message", Json.str "3"), ("level", Json.str "info"),
       ("metrics", Json.obj []), ("context", Json.obj [])] :=
  ⟨(text_log_hybrid "plain string" "info" [] (Json.int 3)).1,
   (text_log_hybrid "3" "info" [] (Json.int 3)).2
     (fun _ hc => Json.noConfusion hc)⟩

/-- C9 counterexample: the claim that the masked token always equals the
token's first 6 characters followed by one asterisk per remaining character
fails at the token `"abc"` — the claimed mask is `"abc"` itself (nothing
remains to asterisk), but `_mask_token` returns the fixed string
`"******"` for every token of length at most 6. -/
theorem mask_token_short_counterexample :
    mask_token "abc" = "******" ∧ maskSpecWords "abc" = "abc" ∧
    mask_token "abc" ≠ maskSpecWords "abc" :=
  ⟨by decide, by decide, by decide⟩

/-- C9 amended: for every token longer than 6 characters, the masked token
is the token's first 6 characters followed by one asterisk per remaining
character; every token of 6 or fewer characters (the empty token included)
is masked as the fixed string `"******"`. -/
theorem mask_token_masks (token : String) :
    (6 < token.data.length → mask_token token = maskSpecWords token) ∧
    (token.data.length ≤ 6 → mask_token token = "******") := by
  have hL : token.length = token.data.length := rfl
  constructor
  · intro h
    have he : ¬ token = "" := by
      rintro rfl
      exact absurd h (by decide)
    unfold mask_token maskSpecWords
    split
    · rename_i hcond
      simp at hcond
      rcases hcond with hc | hc
      · exact absurd hc he
      · omega
    · rfl
  · intro h
    unfold mask_token
    split
    · rfl
    · rename_i hcond
      simp at hcond
      omega

/-- Witness for the C9 amended theorem: a 16-character token is masked to
its first 6 characters plus 10 asterisks, and a 6-character token collapses
to `"******"`. -/
theorem mask_token_masks_witness :
    mask_token "secret-token-123" = maskSpecWords "secret-token-123" ∧
    mask_token "abc123" = "******" :=
  ⟨(mask_token_masks "secret-token-123").1 (by decide),
   (mask_token_masks "abc123").2 (by decide)⟩

/-- C1: a flush whose HTTP response is 401 or 403 — which presupposes a
request was actually made: non-empty batch, client not disabled, valid
configuration — sets `disabled_permanently`; a permanently disabled client
rejects every `send_log` with `false` and no state change (nothing is
enqueued); and `disabled_permanently`, once true, survives every operation
of the client: `send_log`, `_send_batch`, `flush` and `_start_worker`. -/
theorem auth_failure_disables_permanently :
    (∀ (c : VibexClient) (batch : List LogEntry) (code : Nat) (body : Option Json),
      batch ≠ [] → c.disabled = false → c.disabled_permanently = false →
      c.config.isValidCfg = true → (code = 401 ∨ code = 403) →
      (c.send_batch batch (HttpResponse.status code body)).disabled_permanently = true) ∧
    (∀ (c : VibexClient) (e : LogEntry),
      c.disabled_permanently = true → c.send_log e = (c, false)) ∧
    (∀ (c : VibexClient), c.disabled_permanently = true →
      (∀ e, (c.send_log e).1.disabled_permanently = true) ∧
      (∀ batch resp, (c.send_batch batch resp).disabled_permanently = true) ∧
      (c.flush).disabled_permanently = true ∧
      (c.start_worker).disabled_permanently = true) := by
  refine ⟨?_, ?_, ?_⟩
  · intro c batch code body hb hd hdp hv hcode
    have hbe : batch.isEmpty = false := by
      cases batch with
      | nil => exact absurd rfl hb
      | cons a l => rfl
    rcases hcode with rfl | rfl <;>
      simp [VibexClient.send_batch, hbe, hd, hdp, hv]
  · intro c e h
    simp [VibexClient.send_log, h]
  · intro c h
    refine ⟨?_, ?_, ?_, ?_⟩
    · intro e
      simp [VibexClient.send_log, h]
    · intro batch resp
      simp [VibexClient.send_batch, h]
    · unfold VibexClient.flush
      split <;> exact h
    · unfold VibexClient.start_worker
      split <;> exact h

/-- Witness for the C1 theorem: a freshly constructed valid client is
permanently disabled by a 401 flush response; a permanently disabled
client's `send_log` returns `(unchanged, false)`; and its `flush` keeps the
flag. -/
theorem auth_failure_disables_permanently_witness :
    ((VibexClient.init ⟨some "tok", some "sess", "https://ingest"⟩).send_batch
        [⟨"json", Json.null, 0⟩] (HttpResponse.status 401 none)).disabled_permanently = true ∧
    ({ VibexClient.init ⟨some "tok", some "sess", "https://ingest"⟩ with
        disabled_permanently := true } : VibexClient).send_log ⟨"json", Json.null, 0⟩
      = ({ VibexClient.init ⟨some "tok", some "sess", "https://ingest"⟩ with
        disabled_permanently := true }, false) ∧
    (({ VibexClient.init ⟨some "tok", some "sess", "https://ingest"⟩ with
        disabled_permanently := true } : VibexClient).flush).disabled_permanently = true :=
  ⟨auth_failure_disables_permanently.1 _ [⟨"json", Json.null, 0⟩] 401 none
      (by simp) (by decide) (by decide) (by decide) (Or.inl rfl),
   auth_failure_disables_permanently.2.1 _ ⟨"json", Json.null, 0⟩ rfl,
   ((auth_failure_disables_permanently.2.2 _ rfl).2.2).1⟩

/-- Helper: `handle429` permanently disables exactly when the standalone
hard-limit indicator holds of the response body, and does nothing else. -/
theorem handle429_eq (c : VibexClient) (body : Option Json) :
    handle429 c body =
      if indicator429 body then { c with disabled_permanently := true } else c := by
  cases body with
  | none => rfl
  | some j =>
    cases j with
    | obj kvs =>
      simp only [handle429, indicator429]
      by_cases h : hardLimit429 (dictGetD kvs "error" (Json.str "Rate limit exceeded"))
          (dictGetD kvs "message" (Json.str "Rate limit exceeded")) = some true <;>
        simp [h]
    | null => rfl
    | bool b => rfl
    | int n => rfl
    | float q => rfl
    | str s => rfl
    | arr xs => rfl

/-- C3: a flush answered with HTTP 429 (request actually made: non-empty
batch, active client, valid configuration) drops the batch — the worker's
in-progress batch resets to empty, the queue is untouched and the batch is
never requeued — and permanently disables the client exactly when the JSON
body's `error` field contains `'History Limit'` or its `message` field
lowercased contains `'history limit'` (the history/quota hard-limit
indicator); a 429 without that indicator leaves the client state entirely
unchanged. -/
theorem rate_limit_429 (c : VibexClient) (batch : List LogEntry) (body : Option Json)
    (hb : batch ≠ []) (hd : c.disabled = false) (hdp : c.disabled_permanently = false)
    (hv : c.config.isValidCfg = true) :
    ((c.send_batch batch (HttpResponse.status 429 body)).disabled_permanently = true
      ↔ indicator429 body = true) ∧
    (indicator429 body = false → c.send_batch batch (HttpResponse.status 429 body) = c) ∧
    (workerFlushStep c batch (HttpResponse.status 429 body)).2 = [] ∧
    (c.send_batch batch (HttpResponse.status 429 body)).disabled = false ∧
    (c.send_batch batch (HttpResponse.status 429 body)).queue = c.queue := by
  have hbe : batch.isEmpty = false := by
    cases batch with
    | nil => exact absurd rfl hb
    | cons a l => rfl
  have hsb : c.send_batch batch (HttpResponse.status 429 body) =
      if indicator429 body then { c with disabled_permanently := true } else c := by
    simp [VibexClient.send_batch, hbe, hd, hdp, hv, handle429_eq]
  rw [hsb]
  by_cases hi : indicator429 body = true
  · simp [hi, hdp, workerFlushStep, hd, hsb]
  · simp at hi
    simp [hi, hdp, workerFlushStep, hd, hsb]

/-- Witness for the C3 theorem: a 429 body whose `error` field says
`"History Limit Reached"` permanently disables a fresh valid client; a 429
body saying `"Too many requests"` leaves it unchanged. -/
theorem rate_limit_429_witness :
    ((VibexClient.init ⟨some "tok", some "sess", "https://ingest"⟩).send_batch
        [⟨"json", Json.null, 0⟩]
        (HttpResponse.status 429
          (some (Json.obj [("error", Json.str "History Limit Reached")])))).disabled_permanently
      = true ∧
    (VibexClient.init ⟨some "tok", some "sess", "https://ingest"⟩).send_batch
        [⟨"json", Json.null, 0⟩]
        (HttpResponse.status 429 (some (Json.obj [("error", Json.str "Too many requests")])))
      = VibexClient.init ⟨some "tok", some "sess", "https://ingest"⟩ :=
  ⟨(rate_limit_429 _ [⟨"json", Json.null, 0⟩]
      (some (Json.obj [("error", Json.str "History Limit Reached")]))
      (by simp) (by decide) (by decide) (by decide)).1.mpr (by decide),
   (rate_limit_429 _ [⟨"json", Json.null, 0⟩]
      (some (Json.obj [("error", Json.str "Too many requests")]))
      (by simp) (by decide) (by decide) (by decide)).2.1 (by decide)⟩

/-- C4: a flush answered with HTTP 404, with any other non-2xx status
besides 401/403/429 (500 included), or aborted by a transport exception,
leaves the client completely unchanged — `disabled` and
`disabled_permanently` keep their values and the state stays active — a
subsequent `send_log` (queue not full) is still accepted, and the failed
batch is dropped: the worker's batch resets to empty and nothing is
requeued. (The theorem covers every status other than 401/403/429, which
subsumes the claim's 404 and generic non-2xx cases.) -/
theorem transient_failures_keep_active (c : VibexClient) (batch : List LogEntry)
    (resp : HttpResponse) (e : LogEntry)
    (hd : c.disabled = false) (hdp : c.disabled_permanently = false)
    (hv : c.config.isValidCfg = true)
    (hresp : resp = HttpResponse.exn ∨
      ∃ code body, resp = HttpResponse.status code body ∧
        code ≠ 401 ∧ code ≠ 403 ∧ code ≠ 429) :
    c.send_batch batch resp = c ∧
    (workerFlushStep c batch resp).2 = [] ∧
    (c.queue.length < MAX_QUEUE_SIZE → ((c.send_batch batch resp).send_log e).2 = true) := by
  have hsb : c.send_batch batch resp = c := by
    by_cases hbe : batch.isEmpty
    · simp [VibexClient.send_batch, hbe]
    · rcases hresp with rfl | ⟨code, body, rfl, h1, h3, h9⟩
      · simp [VibexClient.send_batch, hbe, hd, hdp, hv]
      · simp [VibexClient.send_batch, hbe, hd, hdp, hv, h1, h3, h9]
  refine ⟨hsb, by simp [workerFlushStep], ?_⟩
  intro hq
  rw [hsb]
  by_cases hw : c.worker_started <;>
    simp [VibexClient.send_log, VibexClient.start_worker, hd, hdp, hv, hw, Nat.not_le.mpr hq]

/-- Witness for the C4 theorem: a 500 flush response leaves a fresh valid
client unchanged, and after a 404 flush response it still accepts a
`send_log`. -/
theorem transient_failures_keep_active_witness :
    (VibexClient.init ⟨some "tok", some "sess", "https://ingest"⟩).send_batch
        [⟨"json", Json.null, 0⟩] (HttpResponse.status 500 none)
      = VibexClient.init ⟨some "tok", some "sess", "https://ingest"⟩ ∧
    (((VibexClient.init ⟨some "tok", some "sess", "https://ingest"⟩).send_batch
        [⟨"json", Json.null, 0⟩] (HttpResponse.status 404 none)).send_log
        ⟨"json", Json.null, 0⟩).2 = true :=
  ⟨(transient_failures_keep_active _ [⟨"json", Json.null, 0⟩]
      (HttpResponse.status 500 none) ⟨"json", Json.null, 0⟩
      (by decide) (by decide) (by decide)
      (Or.inr ⟨500, none, rfl, by decide, by decide, by decide⟩)).1,
   (transient_failures_keep_active _ [⟨"json", Json.null, 0⟩]
      (HttpResponse.status 404 none) ⟨"json", Json.null, 0⟩
      (by decide) (by decide) (by decide)
      (Or.inr ⟨404, none, rfl, by decide, by decide, by decide⟩)).2.2 (by decide)⟩

/-- C10: `flush` never disables the client. For a client constructed with
valid configuration (its worker started at construction), after `flush`
the disable flags are still false and `_worker_started` is still true, so
a subsequent `send_log` (queue not full) returns true and enqueues the
event even though the shutdown signal is set and the worker has exited;
and on every client whatsoever, `flush` preserves `disabled`,
`disabled_permanently`, `_worker_started` and the queue. -/
theorem flush_keeps_accepting (config : VibexConfig) (hv : config.isValidCfg = true)
    (e : LogEntry) :
    ((VibexClient.init config).flush).disabled = false ∧
    ((VibexClient.init config).flush).disabled_permanently = false ∧
    ((VibexClient.init config).flush).worker_started = true ∧
    (((VibexClient.init config).flush).send_log e).2 = true ∧
    (((VibexClient.init config).flush).send_log e).1.queue = [e] ∧
    (∀ c : VibexClient,
      (c.flush).disabled = c.disabled ∧
      (c.flush).disabled_permanently = c.disabled_permanently ∧
      (c.flush).worker_started = c.worker_started ∧
      (c.flush).queue = c.queue) := by
  have hinit : VibexClient.init config =
      { config := config, disabled := false, disabled_permanently := false,
        worker_started := true, shutdown := false, queue := [] } := by
    simp [VibexClient.init, hv, VibexClient.start_worker]
  refine ⟨?_, ?_, ?_, ?_, ?_, ?_⟩
  · rw [hinit]; rfl
  · rw [hinit]; rfl
  · rw [hinit]; rfl
  · rw [hinit]
    simp [VibexClient.flush, VibexClient.send_log, hv, MAX_QUEUE_SIZE]
  · rw [hinit]
    simp [VibexClient.flush, VibexClient.send_log, hv, MAX_QUEUE_SIZE]
  · intro c
    unfold VibexClient.flush
    split <;> simp

/-- Witness for the C10 theorem: a fresh valid client, flushed, still
accepts and enqueues an event. -/
theorem flush_keeps_accepting_witness :
    (((VibexClient.init ⟨some "tok", some "sess", "https://ingest"⟩).flush).send_log
        ⟨"json", Json.null, 0⟩).2 = true ∧
    (((VibexClient.init ⟨some "tok", some "sess", "https://ingest"⟩).flush).send_log
        ⟨"json", Json.null, 0⟩).1.queue = [⟨"json", Json.null, 0⟩] :=
  ⟨(flush_keeps_accepting ⟨some "tok", some "sess", "https://ingest"⟩ (by decide)
      ⟨"json", Json.null, 0⟩).2.2.2.1,
   (flush_keeps_accepting ⟨some "tok", some "sess", "https://ingest"⟩ (by decide)
      ⟨"json", Json.null, 0⟩).2.2.2.2.1⟩

/-- Helper: on an accepting client, `send_log` keeps the client accepting,
appends the event exactly when the queue is below capacity, and returns
true exactly in that case. -/
theorem send_log_acc_eq (c : VibexClient) (e : LogEntry) (h : acceptingState c) :
    acceptingState (c.send_log e).1 ∧
    ((c.send_log e).1.queue =
      if MAX_QUEUE_SIZE ≤ c.queue.length then c.queue else c.queue ++ [e]) ∧
    ((c.send_log e).2 = !(decide (MAX_QUEUE_SIZE ≤ c.queue.length))) := by
  obtain ⟨hd, hdp, hv⟩ := h
  by_cases hw : c.worker_started <;>
    by_cases hq : MAX_QUEUE_SIZE ≤ c.queue.length <;>
      simp [VibexClient.send_log, VibexClient.start_worker, hd, hdp, hv, hw, hq, acceptingState]

/-- Helper: enqueuing a list of events into an accepting client with no
draining worker rejects exactly the enqueues past remaining capacity. -/
theorem sendAll_count (es : List LogEntry) : ∀ (c : VibexClient), acceptingState c →
    c.queue.length ≤ MAX_QUEUE_SIZE →
    (sendAll c es).2.count false
      = es.length - min es.length (MAX_QUEUE_SIZE - c.queue.length) := by
  induction es with
  | nil => intro c h hq; simp [sendAll]
  | cons e es ih =>
    intro c h hq
    obtain ⟨hacc, hqe, hbool⟩ := send_log_acc_eq c e h
    by_cases hfull : MAX_QUEUE_SIZE ≤ c.queue.length
    · have hlen : (c.send_log e).1.queue.length = c.queue.length := by
        rw [hqe, if_pos hfull]
      have := ih (c.send_log e).1 hacc (by rw [hlen]; exact hq)
      rw [hlen] at this
      simp only [sendAll, List.count_cons, this, hbool, hfull]
      simp
      omega
    · have hlen : (c.send_log e).1.queue.length = c.queue.length + 1 := by
        rw [hqe, if_neg hfull]
        simp
      have := ih (c.send_log e).1 hacc (by rw [hlen]; omega)
      rw [hlen] at this
      simp only [sendAll, List.count_cons, this, hbool, hfull]
      simp
      omega

/-- C2: the queue never exceeds `MAX_QUEUE_SIZE` (1000). Enqueuing 1001
events into a freshly constructed valid client with no draining worker
yields exactly one `send_log` returning false; every `send_log` preserves
the capacity bound on any client whatsoever (so the size stays at most 1000
at all times); and a `send_log` against a full queue returns false and
drops that single event, leaving the queue untouched. -/
theorem queue_capacity_invariant (config : VibexConfig) (hv : config.isValidCfg = true)
    (es : List LogEntry) (hlen : es.length = 1001) :
    (sendAll (VibexClient.init config) es).2.count false = 1 ∧
    (∀ (c : VibexClient) (e : LogEntry), c.queue.length ≤ MAX_QUEUE_SIZE →
      (c.send_log e).1.queue.length ≤ MAX_QUEUE_SIZE) ∧
    (∀ (c : VibexClient) (e : LogEntry), MAX_QUEUE_SIZE ≤ c.queue.length →
      (c.send_log e).2 = false ∧ (c.send_log e).1.queue = c.queue) := by
  refine ⟨?_, ?_, ?_⟩
  · have hinit : VibexClient.init config =
        { config := config, disabled := false, disabled_permanently := false,
          worker_started := true, shutdown := false, queue := [] } := by
      simp [VibexClient.init, hv, VibexClient.start_worker]
    rw [hinit]
    have hcount := sendAll_count es
      { config := config, disabled := false, disabled_permanently := false,
        worker_started := true, shutdown := false, queue := [] }
      ⟨rfl, rfl, hv⟩ (by simp)
    rw [hcount]
    simp [MAX_QUEUE_SIZE, hlen]
  · intro c e hq
    by_cases hd : c.disabled <;> by_cases hdp : c.disabled_permanently <;>
      by_cases hvv : c.config.isValidCfg <;> by_cases hw : c.worker_started <;>
        by_cases hfull : MAX_QUEUE_SIZE ≤ c.queue.length <;>
          simp [VibexClient.send_log, VibexClient.start_worker, hd, hdp, hvv, hw, hfull] <;>
            omega
  · intro c e hq
    by_cases hd : c.disabled <;> by_cases hdp : c.disabled_permanently <;>
      by_cases hvv : c.config.isValidCfg <;> by_cases hw : c.worker_started <;>
        simp [VibexClient.send_log, VibexClient.start_worker, hd, hdp, hvv, hw, hq]

/-- Witness for the C2 theorem: 1001 identical events pushed into a fresh
valid client with no draining worker produce exactly one rejected send. -/
theorem queue_capacity_invariant_witness :
    (sendAll (VibexClient.init ⟨some "tok", some "sess", "https://ingest"⟩)
      (List.replicate 1001 ⟨"json", Json.null, 0⟩)).2.count false = 1 :=
  (queue_capacity_invariant ⟨some "tok", some "sess", "https://ingest"⟩ (by decide)
    (List.replicate 1001 ⟨"json", Json.null, 0⟩) (by rw [List.length_replicate])).1
